import Mathlib

/-!
Shallow embedding of the Hackbright project tracker (`hackbright.py`).

The database is modelled as three append-ordered lists (rows in insertion
order); a SQL `SELECT ... WHERE` is a `List.filter`, a join is a nested
`flatMap`, and `fetchone` is `List.head?`.  Each command function returns
`Except Fault (List String × DB)`: the list of printed lines and the
database state after the call, or a `Fault` when the Python code would
raise an unhandled exception.
-/

namespace Hackbright

/-- A row of the `students` table. -/
structure Student where
  first_name : String
  last_name : String
  github : String
deriving Repr, DecidableEq

/-- A row of the `projects` table (`max_grade` is an SQL integer). -/
structure Project where
  title : String
  description : String
  max_grade : Int
deriving Repr, DecidableEq

/-- A row of the `grades` table; the grade value arrives as a REPL token,
so it is stored as a string. -/
structure Grade where
  student_github : String
  project_title : String
  grade : String
deriving Repr, DecidableEq

/-- The database: the three tables, rows in insertion order. -/
structure DB where
  students : List Student
  projects : List Project
  grades : List Grade
deriving Repr, DecidableEq

/-- Unhandled Python exceptions that the embedded code can raise. -/
inductive Fault where
  /-- subscripting the `None` returned by an empty `fetchone` -/
  | typeError
  /-- tuple-unpack arity mismatch, or a failing `int(...)` conversion -/
  | valueError
  /-- indexing an empty token list (`tokens[0]`) -/
  | indexError
deriving Repr, DecidableEq

/-- Embeds `is_invalid_student`: `SELECT * FROM students WHERE github = :github`
followed by `fetchone() == None`. -/
def is_invalid_student (db : DB) (github : String) : Bool :=
  ((db.students.filter (fun s => s.github == github)).head?).isNone

/-- Embeds `is_invalid_project_title`: `SELECT * FROM projects WHERE title = :title`
followed by `fetchone() == None`. -/
def is_invalid_project_title (db : DB) (title : String) : Bool :=
  ((db.projects.filter (fun p => p.title == title)).head?).isNone

/-- Embeds `is_valid_number_of_args`. -/
def is_valid_number_of_args (args : List String) (num : Nat) : Bool :=
  args.length == num

/-- Embeds `get_student_by_github`: runs the SELECT, checks
`is_invalid_student`, and otherwise prints the fetched row. -/
def get_student_by_github (db : DB) (github : String) :
    Except Fault (List String × DB) :=
  let db_cursor := db.students.filter (fun s => s.github == github)
  if is_invalid_student db github then
    .ok (["Invalid student, please try again"], db)
  else
    match db_cursor.head? with
    | none => .error .typeError
    | some row =>
        .ok (["Student: " ++ row.first_name ++ " " ++ row.last_name ++
              "\nGitHub account: " ++ row.github], db)

/-- Embeds `make_new_student`: unconditional INSERT, commit, confirmation. -/
def make_new_student (db : DB) (first_name last_name github : String) :
    List String × DB :=
  (["Successfully added student:" ++ first_name ++ " " ++ last_name],
   { db with students := db.students ++ [⟨first_name, last_name, github⟩] })

/-- Embeds `get_project_by_title`: checks `is_invalid_project_title`,
then prints the fetched row. -/
def get_project_by_title (db : DB) (title : String) :
    Except Fault (List String × DB) :=
  if is_invalid_project_title db title then
    .ok (["Invalid project title, please try again"], db)
  else
    match (db.projects.filter (fun p => p.title == title)).head? with
    | none => .error .typeError
    | some row =>
        .ok (["Project: " ++ title ++ "\nDescription: " ++ row.description ++
              "\nMax grade: " ++ toString row.max_grade], db)

/-- Result rows of the query in `get_grade_by_github_title`:
`FROM grades JOIN students ON (grades.student_github = students.github)
WHERE github = :github AND project_title = :title`. -/
def gradeStudentRows (db : DB) (github title : String) :
    List (Student × Grade) :=
  (db.grades.flatMap (fun gr =>
      (db.students.filter (fun st => st.github == gr.student_github)).map
        (fun st => (st, gr)))).filter
    (fun r => r.1.github == github && r.2.project_title == title)

/-- Embeds `get_grade_by_github_title`: validates the student first, then
the project title, then fetches the joined row and prints it (faulting
when the fetch comes back empty). -/
def get_grade_by_github_title (db : DB) (github title : String) :
    Except Fault (List String × DB) :=
  if is_invalid_student db github then
    .ok (["Invalid student, please try again"], db)
  else if is_invalid_project_title db title then
    .ok (["Invalid project title, please try again"], db)
  else
    match (gradeStudentRows db github title).head? with
    | none => .error .typeError
    | some row =>
        .ok (["Student: " ++ row.1.first_name ++ " " ++ row.1.last_name ++
              "\nProject: " ++ title ++ "\nGrade: " ++ row.2.grade], db)

/-- Embeds `assign_grade`: unconditional INSERT (no foreign-key
validation), commit, confirmation. -/
def assign_grade (db : DB) (github title grade : String) :
    List String × DB :=
  (["Successfully added a grade of " ++ grade ++ " for " ++ github ++
    "\x27s " ++ title ++ " project"],
   { db with grades := db.grades ++ [⟨github, title, grade⟩] })

/-- Embeds `add_project`: unconditional INSERT, commit, confirmation. -/
def add_project (db : DB) (title description : String) (max_grade : Int) :
    List String × DB :=
  (["Successfully added " ++ title ++ " to the projects database"],
   { db with projects := db.projects ++ [⟨title, description, max_grade⟩] })

/-- Result rows of the query in `get_all_grades`:
`FROM grades JOIN students ON (grades.student_github = students.github)
JOIN projects ON (grades.project_title = projects.title)
WHERE student_github = :github`. -/
def allGradesRows (db : DB) (github : String) :
    List (Student × Grade × Project) :=
  (db.grades.flatMap (fun gr =>
      (db.students.filter (fun st => st.github == gr.student_github)).flatMap
        (fun st =>
          (db.projects.filter (fun p => p.title == gr.project_title)).map
            (fun p => (st, gr, p))))).filter
    (fun r => r.2.1.student_github == github)

/-- Embeds `get_all_grades`: validates the student, fetches the first
joined row to format the header (faulting when it is `None`), then prints
one line per row. -/
def get_all_grades (db : DB) (github : String) :
    Except Fault (List String × DB) :=
  if is_invalid_student db github then
    .ok (["Invalid student, please try again"], db)
  else
    let rows := allGradesRows db github
    match rows with
    | [] => .error .typeError
    | row :: _ =>
        .ok (("All grades for " ++ row.1.first_name ++ " " ++
              row.1.last_name) ::
             rows.map (fun r =>
               r.2.1.project_title ++ " Project: " ++ r.2.1.grade ++ "/" ++
               toString r.2.2.max_grade), db)

/-- Models Python `int(s)` on a REPL token, over the character list:
optional surrounding whitespace, an optional sign, then one or more
decimal digits; anything else raises `ValueError`. -/
def pyIntChars (cs : List Char) : Option Int :=
  let t := ((cs.dropWhile Char.isWhitespace).reverse.dropWhile
    Char.isWhitespace).reverse
  let signed : Bool × List Char :=
    match t with
    | c :: rest =>
        if c = '-' then (true, rest)
        else if c = '+' then (false, rest) else (false, t)
    | [] => (false, t)
  if !signed.2.isEmpty && signed.2.all Char.isDigit then
    let n : Nat := signed.2.foldl (fun acc c => acc * 10 + (c.toNat - 48)) 0
    some (if signed.1 then -(n : Int) else (n : Int))
  else
    none

/-- Models Python `int(s)` on a REPL token. -/
def pyInt (s : String) : Option Int :=
  pyIntChars s.toList

/-- Worker for `pySplit`: `acc` holds the characters of the current word,
in reverse. -/
def pySplitAux : List Char → List Char → List String
  | [], acc => if acc.isEmpty then [] else [String.mk acc.reverse]
  | c :: cs, acc =>
      if c.isWhitespace then
        if acc.isEmpty then pySplitAux cs []
        else String.mk acc.reverse :: pySplitAux cs []
      else pySplitAux cs (c :: acc)

/-- Models Python `str.split()` with no arguments: split on runs of
whitespace, discarding empty pieces. -/
def pySplit (s : String) : List String :=
  pySplitAux s.toList []

/-- Embeds the dispatch chain in `handle_input` for one already-tokenised
command: the `if/elif` ladder over the command name. -/
def dispatch (db : DB) (command : String) (args : List String) :
    Except Fault (List String × DB) :=
  if command == "student" then
    if is_valid_number_of_args args 1 then
      match args with
      | github :: _ => get_student_by_github db github
      | [] => .error .indexError
    else
      .ok (["The \x27students\x27 command takes exactly one argument. Please try again."], db)
  else if command == "new_student" then
    match args with
    | [first_name, last_name, github] =>
        .ok (make_new_student db first_name last_name github)
    | _ => .error .valueError
  else if command == "project_info" then
    if is_valid_number_of_args args 1 then
      match args with
      | title :: _ => get_project_by_title db title
      | [] => .error .indexError
    else
      .ok (["The \x27project_info\x27 command takes exactly one argument. Please try again."], db)
  else if command == "get_grade" then
    if is_valid_number_of_args args 2 then
      match args with
      | [github, title] => get_grade_by_github_title db github title
      | _ => .error .valueError
    else
      .ok (["The \x27get_grade\x27 command takes exactly two arguments. Please try again."], db)
  else if command == "assign_grade" then
    if is_valid_number_of_args args 3 then
      match args with
      | [github, title, grade] => .ok (assign_grade db github title grade)
      | _ => .error .valueError
    else
      .ok (["The \x27assign_grade\x27 command takes exactly three arguments. Please try again."], db)
  else if command == "add_project" then
    match args with
    | title :: d :: rest =>
        match pyInt ((d :: rest).getLastD "") with
        | some max_grade =>
            .ok (add_project db title
                  (String.intercalate " " ((d :: rest).dropLast)) max_grade)
        | none => .error .valueError
    | _ => .error .valueError
  else if command == "get_all_grades" then
    if is_valid_number_of_args args 1 then
      match args with
      | github :: _ => get_all_grades db github
      | [] => .error .indexError
    else
      .ok (["The \x27get_all_grades\x27 command takes exactly one argument. Please try again."], db)
  else if command == "quit" then
    .ok ([], db)
  else
    .ok (["Invalid Entry. Try again."], db)

/-- Embeds one iteration of the `handle_input` loop body: tokenise the
line (`tokens[0]` on an empty line raises `IndexError`) and dispatch. -/
def handle_line (db : DB) (input_string : String) :
    Except Fault (List String × DB) :=
  match pySplit input_string with
  | [] => .error .indexError
  | command :: args => dispatch db command args

/-- The database state after a command result, given the state before
(an unhandled fault terminates the process, so the state is moot there
and we return the input state). -/
def resState (r : Except Fault (List String × DB)) (d : DB) : DB :=
  match r with
  | .ok (_, d2) => d2
  | .error _ => d

/-! ### Sample database states used by witnesses and counterexamples -/

/-- A database holding one student and nothing else. -/
def dbSarah : DB := ⟨[⟨"Sarah", "Smith", "sarah"⟩], [], []⟩

/-- The empty database. -/
def dbEmpty : DB := ⟨[], [], []⟩

/-- A database with one student, one project, and one grade row. -/
def dbFull : DB :=
  ⟨[⟨"Sarah", "Smith", "sarah"⟩], [⟨"Markov", "desc", 100⟩],
   [⟨"sarah", "Markov", "90"⟩]⟩

/-- A database with one student and one project but no grade rows. -/
def dbNoGrades : DB :=
  ⟨[⟨"Sarah", "Smith", "sarah"⟩], [⟨"Markov", "desc", 100⟩], []⟩

/-! ### Helper lemmas -/

lemma resState_get_student_by_github (db : DB) (g : String) :
    resState (get_student_by_github db g) db = db := by
  unfold get_student_by_github
  dsimp only
  repeat' split
  all_goals rfl

lemma resState_get_project_by_title (db : DB) (t : String) :
    resState (get_project_by_title db t) db = db := by
  unfold get_project_by_title
  repeat' split
  all_goals rfl

lemma resState_get_grade_by_github_title (db : DB) (g t : String) :
    resState (get_grade_by_github_title db g t) db = db := by
  unfold get_grade_by_github_title
  repeat' split
  all_goals rfl

lemma resState_get_all_grades (db : DB) (g : String) :
    resState (get_all_grades db g) db = db := by
  unfold get_all_grades
  dsimp only
  repeat' split
  all_goals rfl

lemma students_filter_eq_nil (db : DB) (g : String)
    (h : ∀ s ∈ db.students, s.github ≠ g) :
    db.students.filter (fun s => s.github == g) = [] :=
  List.filter_eq_nil_iff.mpr (fun s hs => by simp [h s hs])

lemma findSome?_ite_filter {α β : Type} (c : α → Bool) (f : α → β)
    (l : List α) :
    l.findSome? (fun a => if c a then some (f a) else none) =
      (l.filter c).head?.map f := by
  induction l with
  | nil => rfl
  | cons a l ih =>
      by_cases h : c a = true
      · simp [List.findSome?_cons, List.filter_cons, h]
      · simp [List.findSome?_cons, List.filter_cons, h, ih]

lemma filter_pair_block (students : List Student) (gr : Grade)
    (g t : String) :
    ((students.filter (fun st => st.github == gr.student_github)).map
        (fun st => (st, gr))).filter
      (fun r => r.1.github == g && r.2.project_title == t) =
    (if gr.student_github == g && gr.project_title == t then
       (students.filter (fun st => st.github == g)).map (fun st => (st, gr))
     else []) := by
  by_cases hsg : gr.student_github = g
  · subst hsg
    by_cases hpt : gr.project_title = t
    · rw [if_pos (by simp [hpt])]
      apply List.filter_eq_self.mpr
      intro r hr
      simp only [List.mem_map, List.mem_filter] at hr
      obtain ⟨st, ⟨_, hq⟩, rfl⟩ := hr
      simp [hpt, hq]
    · rw [if_neg (by simp [hpt])]
      apply List.filter_eq_nil_iff.mpr
      intro r hr
      simp only [List.mem_map, List.mem_filter] at hr
      obtain ⟨st, ⟨_, hq⟩, rfl⟩ := hr
      simp [hpt]
  · rw [if_neg (by simp [hsg])]
    apply List.filter_eq_nil_iff.mpr
    intro r hr
    simp only [List.mem_map, List.mem_filter] at hr
    obtain ⟨st, ⟨_, hq⟩, rfl⟩ := hr
    simp only [Bool.and_eq_true, beq_iff_eq, not_and]
    intro hg'
    exact absurd ((eq_of_beq hq).symm.trans hg') hsg

lemma gradeStudentRows_eq (db : DB) (g t : String) :
    gradeStudentRows db g t =
      db.grades.flatMap (fun gr =>
        if gr.student_github == g && gr.project_title == t then
          (db.students.filter (fun st => st.github == g)).map
            (fun st => (st, gr))
        else []) := by
  unfold gradeStudentRows
  rw [List.filter_flatMap]
  congr 1
  funext gr
  exact filter_pair_block db.students gr g t

lemma gradeStudentRows_head (db : DB) (g t : String) (s : Student)
    (hs : (db.students.filter (fun st => st.github == g)).head? = some s) :
    (gradeStudentRows db g t).head? =
      ((db.grades.filter
          (fun gr => gr.student_github == g &&
            gr.project_title == t)).head?).map (fun gr => (s, gr)) := by
  rw [gradeStudentRows_eq, List.head?_flatMap]
  have hblock : ∀ gr : Grade,
      ((if gr.student_github == g && gr.project_title == t then
          (db.students.filter (fun st => st.github == g)).map
            (fun st => (st, gr))
        else []).head?) =
      (if gr.student_github == g && gr.project_title == t then
        some (s, gr) else none) := by
    intro gr
    by_cases h : (gr.student_github == g && gr.project_title == t) = true
    · simp [h, List.head?_map, hs]
    · simp [h]
  simp only [hblock]
  exact findSome?_ite_filter _ _ _

lemma dispatch_add_project_eq (db : DB) (args : List String) :
    dispatch db "add_project" args =
      (match args with
       | title :: d :: rest =>
          (match pyInt ((d :: rest).getLastD "") with
           | some max_grade =>
               .ok (add_project db title
                     (String.intercalate " " ((d :: rest).dropLast)) max_grade)
           | none => .error .valueError)
       | _ => .error .valueError) := rfl

/-! ### Claim theorems -/

/-- C1: `get_all_grades` on a student present in `students` with zero
matching grade rows must not fault when formatting the header — the code
does fault (it subscripts the `None` returned by `fetchone`), so this
evaluates the code at the failing input and records the `TypeError`. -/
theorem C1_get_all_grades_header_fault :
    get_all_grades dbSarah "sarah" = .error .typeError := rfl

/-- C2: `assign_grade` inserts the grade row, commits, and prints the
confirmation for every triple, with no existence validation on either
foreign key — the students and projects tables are untouched and the
result is the same whether or not `github` or `title` exist. -/
theorem C2_assign_grade_unconditional (db : DB) (github title grade : String) :
    assign_grade db github title grade =
      (["Successfully added a grade of " ++ grade ++ " for " ++ github ++
        "\x27s " ++ title ++ " project"],
       { db with grades := db.grades ++ [⟨github, title, grade⟩] }) := rfl

/-- C4: for a github absent from the students table,
`get_student_by_github` prints the invalid-student message, leaves the
database unchanged, and does nothing else. -/
theorem C4_invalid_student_message (db : DB) (github : String)
    (h : ∀ s ∈ db.students, s.github ≠ github) :
    get_student_by_github db github =
      .ok (["Invalid student, please try again"], db) := by
  simp [get_student_by_github, is_invalid_student,
    students_filter_eq_nil db github h]

/-- Witness for C4 at a concrete database and github. -/
theorem C4_witness :
    (∀ s ∈ dbSarah.students, s.github ≠ "zzz") ∧
    get_student_by_github dbSarah "zzz" =
      .ok (["Invalid student, please try again"], dbSarah) :=
  ⟨by decide, C4_invalid_student_message dbSarah "zzz" (by decide)⟩

/-- C8: each lookup operation leaves the database state unchanged
(reads perform no insert, update, or commit), so calling it twice in
succession returns the identical result both times. -/
theorem C8_lookups_idempotent (db : DB) (g t : String) :
    resState (get_student_by_github db g) db = db ∧
    resState (get_project_by_title db t) db = db ∧
    resState (get_grade_by_github_title db g t) db = db ∧
    resState (get_all_grades db g) db = db ∧
    get_student_by_github (resState (get_student_by_github db g) db) g =
      get_student_by_github db g ∧
    get_project_by_title (resState (get_project_by_title db t) db) t =
      get_project_by_title db t ∧
    get_grade_by_github_title
        (resState (get_grade_by_github_title db g t) db) g t =
      get_grade_by_github_title db g t ∧
    get_all_grades (resState (get_all_grades db g) db) g =
      get_all_grades db g := by
  have h1 := resState_get_student_by_github db g
  have h2 := resState_get_project_by_title db t
  have h3 := resState_get_grade_by_github_title db g t
  have h4 := resState_get_all_grades db g
  exact ⟨h1, h2, h3, h4, by rw [h1], by rw [h2], by rw [h3], by rw [h4]⟩

/-- C10: a line with no tokens (empty or whitespace-only) makes the loop
body index an empty token list: it raises `IndexError` instead of
printing the invalid-entry message. -/
theorem C10_empty_line_faults (db : DB) (s : String)
    (h : pySplit s = []) :
    handle_line db s = .error .indexError := by
  unfold handle_line
  rw [h]

/-- Witness for C10 on the empty line and on a whitespace-only line. -/
theorem C10_witness :
    pySplit "" = [] ∧ pySplit " \t " = [] ∧
    handle_line dbEmpty "" = .error .indexError ∧
    handle_line dbEmpty " \t " = .error .indexError :=
  ⟨rfl, rfl, C10_empty_line_faults dbEmpty "" rfl,
   C10_empty_line_faults dbEmpty " \t " rfl⟩

/-- C5 (amended): when no existing student row carries github `g`,
`make_new_student f l g` followed by `get_student_by_github g` prints
`f` and `l`.  (As stated over every database the claim fails: with a
pre-existing row under the same github, `fetchone` returns the older
row — see the counterexample.) -/
theorem C5_roundtrip_fresh_github (db : DB) (f l g : String)
    (h : ∀ s ∈ db.students, s.github ≠ g) :
    (make_new_student db f l g).1 =
      ["Successfully added student:" ++ f ++ " " ++ l] ∧
    get_student_by_github (make_new_student db f l g).2 g =
      .ok (["Student: " ++ f ++ " " ++ l ++ "\nGitHub account: " ++ g],
           (make_new_student db f l g).2) := by
  constructor
  · rfl
  · have hf : (make_new_student db f l g).2.students.filter
        (fun s => s.github == g) = [⟨f, l, g⟩] := by
      simp [make_new_student, List.filter_append, students_filter_eq_nil db g h]
    simp [get_student_by_github, is_invalid_student, hf]

/-- Counterexample to C5 as stated: after `make_new_student "Grace"
"Hopper" "sarah"` on a database already holding a student with github
`sarah`, the lookup prints the pre-existing row (`Sarah Smith`),
not `Grace Hopper`. -/
theorem C5_counterexample :
    get_student_by_github (make_new_student dbSarah "Grace" "Hopper" "sarah").2
        "sarah" =
      .ok (["Student: Sarah Smith\nGitHub account: sarah"],
           (make_new_student dbSarah "Grace" "Hopper" "sarah").2) ∧
    ("Student: Sarah Smith\nGitHub account: sarah" ≠
     "Student: Grace Hopper\nGitHub account: sarah") :=
  ⟨rfl, by decide⟩

/-- Witness for the amended C5 on the empty database. -/
theorem C5_witness :
    (∀ s ∈ dbEmpty.students, s.github ≠ "gh") ∧
    ((make_new_student dbEmpty "Ada" "Lovelace" "gh").1 =
      ["Successfully added student:Ada Lovelace"] ∧
     get_student_by_github (make_new_student dbEmpty "Ada" "Lovelace" "gh").2
        "gh" =
      .ok (["Student: Ada Lovelace\nGitHub account: gh"],
           (make_new_student dbEmpty "Ada" "Lovelace" "gh").2)) :=
  ⟨by decide, C5_roundtrip_fresh_github dbEmpty "Ada" "Lovelace" "gh" (by decide)⟩

/-- C7: the commands that check their argument count print an error line
and invoke no operation on a mismatch (the database is returned
unchanged), while `new_student` and `add_project` perform no check and
raise an unhandled `ValueError` on wrong arity. -/
theorem C7_arity_checks (db : DB) (a1 a2 a3 a4 a5 a6 a7 : List String)
    (h1 : a1.length ≠ 1) (h2 : a2.length ≠ 1) (h3 : a3.length ≠ 2)
    (h4 : a4.length ≠ 3) (h5 : a5.length ≠ 1) (h6 : a6.length ≠ 3)
    (h7 : a7.length < 2) :
    dispatch db "student" a1 =
      .ok (["The \x27students\x27 command takes exactly one argument. Please try again."], db) ∧
    dispatch db "project_info" a2 =
      .ok (["The \x27project_info\x27 command takes exactly one argument. Please try again."], db) ∧
    dispatch db "get_grade" a3 =
      .ok (["The \x27get_grade\x27 command takes exactly two arguments. Please try again."], db) ∧
    dispatch db "assign_grade" a4 =
      .ok (["The \x27assign_grade\x27 command takes exactly three arguments. Please try again."], db) ∧
    dispatch db "get_all_grades" a5 =
      .ok (["The \x27get_all_grades\x27 command takes exactly one argument. Please try again."], db) ∧
    dispatch db "new_student" a6 = .error .valueError ∧
    dispatch db "add_project" a7 = .error .valueError := by
  refine ⟨?_, ?_, ?_, ?_, ?_, ?_, ?_⟩
  · have hv : is_valid_number_of_args a1 1 = false := by
      simp [is_valid_number_of_args, h1]
    simp [dispatch, hv]
  · have hv : is_valid_number_of_args a2 1 = false := by
      simp [is_valid_number_of_args, h2]
    simp [dispatch, hv]
  · have hv : is_valid_number_of_args a3 2 = false := by
      simp [is_valid_number_of_args, h3]
    simp [dispatch, hv]
  · have hv : is_valid_number_of_args a4 3 = false := by
      simp [is_valid_number_of_args, h4]
    simp [dispatch, hv]
  · have hv : is_valid_number_of_args a5 1 = false := by
      simp [is_valid_number_of_args, h5]
    simp [dispatch, hv]
  · rcases a6 with _ | ⟨x, _ | ⟨y, _ | ⟨z, _ | ⟨w, rest⟩⟩⟩⟩
    · rfl
    · rfl
    · rfl
    · exact absurd rfl h6
    · rfl
  · rcases a7 with _ | ⟨x, _ | ⟨y, rest⟩⟩
    · rfl
    · rfl
    · simp at h7
      omega

/-- Witness for C7 with every argument list empty. -/
theorem C7_witness :
    (([] : List String).length ≠ 1 ∧ ([] : List String).length ≠ 2 ∧
     ([] : List String).length ≠ 3 ∧ ([] : List String).length < 2) ∧
    (dispatch dbEmpty "student" [] =
      .ok (["The \x27students\x27 command takes exactly one argument. Please try again."], dbEmpty) ∧
    dispatch dbEmpty "project_info" [] =
      .ok (["The \x27project_info\x27 command takes exactly one argument. Please try again."], dbEmpty) ∧
    dispatch dbEmpty "get_grade" [] =
      .ok (["The \x27get_grade\x27 command takes exactly two arguments. Please try again."], dbEmpty) ∧
    dispatch dbEmpty "assign_grade" [] =
      .ok (["The \x27assign_grade\x27 command takes exactly three arguments. Please try again."], dbEmpty) ∧
    dispatch dbEmpty "get_all_grades" [] =
      .ok (["The \x27get_all_grades\x27 command takes exactly one argument. Please try again."], dbEmpty) ∧
    dispatch dbEmpty "new_student" [] = .error .valueError ∧
    dispatch dbEmpty "add_project" [] = .error .valueError) :=
  ⟨⟨by decide, by decide, by decide, by decide⟩,
   C7_arity_checks dbEmpty [] [] [] [] [] [] []
     (by decide) (by decide) (by decide) (by decide) (by decide) (by decide)
     (by decide)⟩

/-- C3: when the github names a student (the first matching row being
`s`), the title names a project, and the pair has a grade row (the first
matching one being `gr`), `get_grade_by_github_title` passes both
validations and prints the student's name, the project title, and
exactly the stored grade value `gr.grade`. -/
theorem C3_get_grade_prints_stored_grade (db : DB) (github title : String)
    (s : Student) (gr : Grade)
    (hs : (db.students.filter (fun st => st.github == github)).head? = some s)
    (hp : is_invalid_project_title db title = false)
    (hgr : (db.grades.filter
        (fun x => x.student_github == github &&
          x.project_title == title)).head? = some gr) :
    get_grade_by_github_title db github title =
      .ok (["Student: " ++ s.first_name ++ " " ++ s.last_name ++
            "\nProject: " ++ title ++ "\nGrade: " ++ gr.grade], db) := by
  have hrows := gradeStudentRows_head db github title s hs
  rw [hgr] at hrows
  have hinv : is_invalid_student db github = false := by
    simp [is_invalid_student, hs]
  simp [get_grade_by_github_title, hinv, hp, hrows]

/-- Witness for C3 on a database with one student, project and grade. -/
theorem C3_witness :
    ((dbFull.students.filter (fun st => st.github == "sarah")).head? =
      some ⟨"Sarah", "Smith", "sarah"⟩) ∧
    is_invalid_project_title dbFull "Markov" = false ∧
    ((dbFull.grades.filter
        (fun x => x.student_github == "sarah" &&
          x.project_title == "Markov")).head? =
      some ⟨"sarah", "Markov", "90"⟩) ∧
    get_grade_by_github_title dbFull "sarah" "Markov" =
      .ok (["Student: Sarah Smith\nProject: Markov\nGrade: 90"], dbFull) :=
  ⟨rfl, rfl, rfl,
   C3_get_grade_prints_stored_grade dbFull "sarah" "Markov"
     ⟨"Sarah", "Smith", "sarah"⟩ ⟨"sarah", "Markov", "90"⟩ rfl rfl rfl⟩

/-- C6: the `add_project` command line takes the first token as title,
parses the last token as the integer max grade, joins the middle tokens
with single spaces as the description, needs at least two tokens
(fewer raise an unhandled `ValueError`), and the stored project is then
reflected by `get_project_by_title`. -/
theorem C6_add_project_parsing (db : DB) (t lastTok : String)
    (mid : List String) (n : Int)
    (hint : pyInt lastTok = some n)
    (hproj : ∀ p ∈ db.projects, p.title ≠ "Proj") :
    dispatch db "add_project" (t :: mid ++ [lastTok]) =
      .ok (add_project db t (String.intercalate " " mid) n) ∧
    dispatch db "add_project" [] = .error .valueError ∧
    dispatch db "add_project" [t] = .error .valueError ∧
    get_project_by_title (add_project db "Proj" "a b c" 10).2 "Proj" =
      .ok (["Project: Proj\nDescription: a b c\nMax grade: 10"],
           (add_project db "Proj" "a b c" 10).2) := by
  refine ⟨?_, rfl, rfl, ?_⟩
  · cases mid with
    | nil =>
        rw [dispatch_add_project_eq]
        simp only [List.cons_append, List.nil_append]
        rw [show ([lastTok].getLastD "") = lastTok by
          simp [List.getLastD_eq_getLast?]]
        rw [hint]
        rfl
    | cons m ms =>
        rw [dispatch_add_project_eq]
        dsimp only [List.cons_append]
        rw [show (m :: (ms ++ [lastTok])).getLastD "" = lastTok by
          rw [← List.cons_append, List.getLastD_eq_getLast?,
            List.getLast?_concat]
          rfl]
        rw [hint]
        rw [show (m :: (ms ++ [lastTok])).dropLast = m :: ms by
          rw [← List.cons_append, List.dropLast_concat]]
  · have hnil : (add_project db "Proj" "a b c" 10).2.projects.filter
        (fun p => p.title == "Proj") = [⟨"Proj", "a b c", 10⟩] := by
      have h0 : db.projects.filter (fun p => p.title == "Proj") = [] :=
        List.filter_eq_nil_iff.mpr (fun p hp => by simp [hproj p hp])
      simp [add_project, List.filter_append, h0]
    simp [get_project_by_title, is_invalid_project_title, hnil]
    rfl

/-- Witness for C6 on the empty database and the command line
`add_project Proj a b c 10`. -/
theorem C6_witness :
    pyInt "10" = some 10 ∧
    (∀ p ∈ dbEmpty.projects, p.title ≠ "Proj") ∧
    (dispatch dbEmpty "add_project" ("Proj" :: ["a", "b", "c"] ++ ["10"]) =
      .ok (add_project dbEmpty "Proj"
        (String.intercalate " " ["a", "b", "c"]) 10) ∧
     dispatch dbEmpty "add_project" [] = .error .valueError ∧
     dispatch dbEmpty "add_project" ["Proj"] = .error .valueError ∧
     get_project_by_title (add_project dbEmpty "Proj" "a b c" 10).2 "Proj" =
       .ok (["Project: Proj\nDescription: a b c\nMax grade: 10"],
            (add_project dbEmpty "Proj" "a b c" 10).2)) :=
  ⟨rfl, by decide,
   C6_add_project_parsing dbEmpty "Proj" "10" ["a", "b", "c"] 10 rfl
     (by decide)⟩

/-- C9: when the github names a student and the title names a project but
no grade row matches the pair, `get_grade_by_github_title` passes both
validations, fetches `None`, and subscripts it: an unhandled `TypeError`
instead of a recoverable message. -/
theorem C9_missing_grade_row_faults (db : DB) (github title : String)
    (hs : is_invalid_student db github = false)
    (hp : is_invalid_project_title db title = false)
    (hng : ∀ gr ∈ db.grades,
      ¬(gr.student_github = github ∧ gr.project_title = title)) :
    get_grade_by_github_title db github title = .error .typeError := by
  obtain ⟨s, hs'⟩ : ∃ s,
      (db.students.filter (fun st => st.github == github)).head? = some s := by
    cases h : (db.students.filter (fun st => st.github == github)).head? with
    | none => simp [is_invalid_student, h] at hs
    | some s => exact ⟨s, rfl⟩
  have hfil : db.grades.filter
      (fun x => x.student_github == github && x.project_title == title) = [] :=
    List.filter_eq_nil_iff.mpr (fun gr hgr => by
      have hn := hng gr hgr
      simp only [Bool.and_eq_true, beq_iff_eq]
      tauto)
  have hrows := gradeStudentRows_head db github title s hs'
  rw [hfil] at hrows
  simp only [List.head?_nil, Option.map_none] at hrows
  simp [get_grade_by_github_title, hs, hp, hrows]

/-- Witness for C9 on a database with one student, one project and no
grade rows. -/
theorem C9_witness :
    is_invalid_student dbNoGrades "sarah" = false ∧
    is_invalid_project_title dbNoGrades "Markov" = false ∧
    (∀ gr ∈ dbNoGrades.grades,
      ¬(gr.student_github = "sarah" ∧ gr.project_title = "Markov")) ∧
    get_grade_by_github_title dbNoGrades "sarah" "Markov" =
      .error .typeError :=
  ⟨rfl, rfl, by decide,
   C9_missing_grade_row_faults dbNoGrades "sarah" "Markov" rfl rfl
     (by decide)⟩

end Hackbright
